import Mathlib

/-!
# Verification of PcbDraw's vector composition core

Shallow embedding of the relevant parts of `pcbdraw/unit.py` and
`pcbdraw/plot.py`, together with theorems settling the specification
claims about them.

Modelling conventions:
* Python `float` / `Decimal` values are modelled as `ℚ` (all inputs in the
  claims are exact decimal literals, on which `float`/`Decimal` arithmetic
  used by the code is exact or — for the transform engine — modelled over
  `ℝ` where trigonometry is involved).
* Python exceptions are modelled by `Option`/`Except`: `none`/`.error`
  means the Python code raises.
* Python strings are modelled as `List Char` (with `String` wrappers at
  the API boundary).
-/

/-! ## Embedding of `pcbdraw/unit.py` -/

/-- `true` iff `pat` is an initial segment of `s` (helper for Python's
substring operations `in`, `replace` and `split`). -/
def headMatches : List Char → List Char → Bool
  | [], _ => true
  | _ :: _, [] => false
  | a :: as, b :: bs => a == b && headMatches as bs

/-- Python `string.replace(old, "")` for a non-empty `old`: remove all
(leftmost, non-overlapping) occurrences of `old` in `s`.  `fuel` bounds the
scan; it is called with `s.length`, which suffices. -/
def eraseSubAux (old : List Char) : Nat → List Char → List Char
  | 0, s => s
  | _ + 1, [] => []
  | fuel + 1, c :: cs =>
    if headMatches old (c :: cs) then
      eraseSubAux old fuel (cs.drop (old.length - 1))
    else
      c :: eraseSubAux old fuel cs

/-- Python `string.replace(old, "")`. -/
def eraseSub (old s : List Char) : List Char := eraseSubAux old s.length s

/-- `erase` from `unit.py`: given a string and a list of strings, removes all
occurrences of the items of `what` in the string (each via `str.replace`). -/
def erase (s : List Char) (what : List (List Char)) : List Char :=
  what.foldl (fun acc w => eraseSub w acc) s

/-- Python `str.strip()`: drop whitespace from both ends. -/
def pyStrip (s : List Char) : List Char :=
  ((s.dropWhile Char.isWhitespace).reverse.dropWhile Char.isWhitespace).reverse

/-- Numeric value of a string of decimal digits (most significant first). -/
def digitsToNat (s : List Char) : Nat :=
  s.foldl (fun n c => 10 * n + (c.toNat - ('0').toNat)) 0

/-- Parse the optional exponent suffix of a `Decimal` literal and apply it to
the already-parsed mantissa; the whole remainder must be consumed. -/
def parseDecExp (mantissa : ℚ) : List Char → Option ℚ
  | [] => some mantissa
  | e :: r =>
    if e == 'e' || e == 'E' then
      let signed : Bool × List Char :=
        match r with
        | '+' :: r2 => (false, r2)
        | '-' :: r2 => (true, r2)
        | _ => (false, r)
      let ds := signed.2.takeWhile Char.isDigit
      if ds.isEmpty ∨ ¬ (signed.2.drop ds.length).isEmpty then none
      else if signed.1 then some (mantissa / 10 ^ digitsToNat ds)
      else some (mantissa * 10 ^ digitsToNat ds)
    else none

/-- Parse an unsigned `Decimal` literal `digits [. digits] | . digits` with
optional exponent; models Python's `decimal.Decimal(str)` (the numeric
literal forms used by the code; special values like `NaN` are not modelled
as no claim exercises them). -/
def parseDecUnsigned (s : List Char) : Option ℚ :=
  let ip := s.takeWhile Char.isDigit
  let rest := s.drop ip.length
  match rest with
  | '.' :: r2 =>
    let fp := r2.takeWhile Char.isDigit
    if ip.isEmpty ∧ fp.isEmpty then none
    else
      parseDecExp ((digitsToNat ip : ℚ) + (digitsToNat fp : ℚ) / 10 ^ fp.length)
        (r2.drop fp.length)
  | _ =>
    if ip.isEmpty then none
    else parseDecExp (digitsToNat ip : ℚ) rest

/-- Python `Decimal(s)` on a (already whitespace-free) literal string. -/
def parseDecimal : List Char → Option ℚ
  | '+' :: rest => parseDecUnsigned rest
  | '-' :: rest => (parseDecUnsigned rest).map (fun q => -q)
  | s => parseDecUnsigned s

/-- The `unit_prefixes` table of `read_resistance`, in Python dict insertion
order. -/
def unitPrefixes : List (Char × ℚ) :=
  [('m', 1 / 1000), ('R', 1), ('K', 1000), ('k', 1000),
   ('M', 1000000), ('G', 1000000000)]

/-- Core of `read_resistance` on character lists.  Returns `none` where the
Python function raises `ValueError`. -/
def readResistanceChars (value : List Char) : Option ℚ :=
  let p1 := erase value [['Ω'], ['O','h','m','s'], ['O','h','m']]
  let p := eraseSub [' '] (pyStrip p1)
  match unitPrefixes.find? (fun pr => p.contains pr.1) with
  | some (pr, table) =>
    let parts := p.splitOn pr
    let s0 := parts.getD 0 []
    let s1 := parts.getD 1 []
    let nWhole := if s0.isEmpty then some (0 : ℚ) else parseDecimal s0
    let nDec := if s1.isEmpty then some (0 : ℚ) else parseDecimal ('.' :: s1)
    match nWhole, nDec with
    | some w, some d => some (w * table + d * table)
    | _, _ => none
  | none => parseDecimal p

/-- `read_resistance` from `unit.py`: parse a resistance string to Ohms
(`Decimal` is modelled as `ℚ`); `none` models the raised `ValueError`. -/
def read_resistance (value : String) : Option ℚ :=
  readResistanceChars value.data

/-! ## Embedding of the contour stitcher (`plot.py`) -/

/-- 2-D point; Python `float` coordinates are modelled as `ℚ` (every claim
input is an exact decimal on which the source's float arithmetic is exact). -/
abbrev QPoint := ℚ × ℚ

/-- Discriminant of an `SvgPathItem`: the source stores the SVG command
letter, `"L"` for a line or `"A"` for an arc. -/
inductive SegKind where
  | L
  | A
  deriving DecidableEq, Repr

/-- The five SVG arc arguments held in `SvgPathItem.args`
(`rx ry x-rotation large-arc-flag sweep-flag`). -/
structure ArcArgs where
  rx : ℚ
  ry : ℚ
  xrot : ℚ
  largeArc : ℚ
  sweep : ℚ
  deriving DecidableEq, Repr

/-- `SvgPathItem` from `plot.py`: one parsed open path fragment with absolute
start and end points (`stop` models the source's `end`, a Lean keyword), the
command kind and, for arcs, the five arc arguments (`args is None` for
lines, as in the source). -/
structure SvgPathItem where
  start : QPoint
  stop : QPoint
  kind : SegKind
  args : Option ArcArgs
  deriving DecidableEq, Repr

instance : Inhabited SvgPathItem := ⟨⟨(0, 0), (0, 0), SegKind.L, none⟩⟩

/-- `SvgPathItem.flip`: swap start and end; for an arc (`args` present)
replace the sweep flag by `1` if it was `< 0.5`, else by `0`. -/
def SvgPathItem.flip (it : SvgPathItem) : SvgPathItem :=
  { it with
    start := it.stop
    stop := it.start
    args := it.args.map (fun a =>
      { a with sweep := if a.sweep < 1 / 2 then 1 else 0 }) }

/-- `SvgPathItem.is_same`: endpoint proximity test.  The source computes
`sqrt(dx² + dy²) < 100`; over exact nonnegative arithmetic this is
equivalent to `dx² + dy² < 100²`, which is how it is stated here (`ℚ` has
no square root). -/
def SvgPathItem.is_same (p1 p2 : QPoint) : Bool :=
  let dx := p1.1 - p2.1
  let dy := p1.2 - p2.2
  dx * dx + dy * dy < 100 ^ 2

/-- `pseudo_distance` from `plot.py`: squared Euclidean distance. -/
def pseudo_distance (a b : QPoint) : ℚ :=
  (a.1 - b.1) ^ 2 + (a.2 - b.2) ^ 2

/-- First index of the minimal value (`np.argmin` on a non-empty list);
index of the running minimum is kept, later equal values do not replace
it. -/
def argminAux : List ℚ → Nat → Nat → ℚ → Nat
  | [], _, best, _ => best
  | d :: ds, i, best, bestD =>
    if d < bestD then argminAux ds (i + 1) i d
    else argminAux ds (i + 1) best bestD

/-- `get_closest` from `plot.py`: index of the element closest (by
`pseudo_distance`) to `reference`; `np.argmin` returns the first minimal
index.  (On an empty list `np.argmin` raises; the stitcher only calls this
with a non-empty pool, and we return `0` there.) -/
def get_closest (reference : QPoint) (elems : List QPoint) : Nat :=
  match elems.map (pseudo_distance reference) with
  | [] => 0
  | d :: ds => argminAux ds 1 0 d

/-- One command of the output `d` attribute: the information content of the
path string built by `get_board_polygon` (`M`/`L`/`A` from
`SvgPathItem.format`, `m`/`a` from the circle conversion). -/
inductive PathCmd where
  | move (p : QPoint)
  | line (p : QPoint)
  | arc (args : ArcArgs) (p : QPoint)
  | moveRel (p : QPoint)
  | arcRel (args : ArcArgs) (p : QPoint)
  deriving DecidableEq, Repr

/-- `SvgPathItem.format`: the commands contributed to the path string;
`first` additionally emits the absolute move to the start point. -/
def SvgPathItem.format (it : SvgPathItem) (first : Bool) : List PathCmd :=
  (if first then [PathCmd.move it.start] else []) ++
    (match it.kind, it.args with
     | SegKind.A, some a => [PathCmd.arc a it.stop]
     | _, _ => [PathCmd.line it.stop])

/-- The `for x in outline: path += x.format(first)` emission: the head is
formatted with `first = True`, the rest with `first = False`. -/
def emitOutline : List SvgPathItem → List PathCmd
  | [] => []
  | x :: xs => x.format true ++ (xs.map (fun y => y.format false)).flatten

/-- The circle-to-path conversion of `get_board_polygon`:
`M cx cy  m -r 0  a r r 0 1 0 (2r) 0  a r r 0 1 0 (-2r) 0`. -/
def circleCmds (cx cy r : ℚ) : List PathCmd :=
  [PathCmd.move (cx, cy),
   PathCmd.moveRel (-r, 0),
   PathCmd.arcRel ⟨r, r, 0, 1, 0⟩ (2 * r, 0),
   PathCmd.arcRel ⟨r, r, 0, 1, 0⟩ (-(2 * r), 0)]

/-- An input node of `get_board_polygon`: a `<path>` (already parsed to an
`SvgPathItem`), a `<circle>`, or any other tag (ignored by the source). -/
inductive SvgNode where
  | path (item : SvgPathItem)
  | circle (cx cy r : ℚ)
  | other

/-- The collection pass of `get_board_polygon`: walk the groups, gather the
path fragments into `elements` and convert circles directly onto the output
path. -/
def collectNodes (groups : List (List SvgNode)) : List SvgPathItem × List PathCmd :=
  groups.foldl
    (fun acc g =>
      g.foldl
        (fun acc2 n =>
          match n with
          | SvgNode.path it => (acc2.1 ++ [it], acc2.2)
          | SvgNode.circle cx cy r => (acc2.1, acc2.2 ++ circleCmds cx cy r)
          | SvgNode.other => acc2)
        acc)
    ([], [])

/-- One iteration body of the inner stitching loop: the four `if` branches
of `get_board_polygon`, each inserting the matched (possibly flipped)
element at the front of `outline` and deleting it from the pool, exactly as
the source does.  Returns `none` when no branch fires. -/
def stitchStep (outline elements : List SvgPathItem) :
    Option (List SvgPathItem × List SvgPathItem) :=
  let headStart := (outline.headD default).start
  let tailEnd := (outline.getLastD default).stop
  let i1 := get_closest headStart (elements.map (·.stop))
  let e1 := elements.getD i1 default
  if SvgPathItem.is_same headStart e1.stop then
    some (e1 :: outline, elements.eraseIdx i1)
  else
    let i2 := get_closest headStart (elements.map (·.start))
    let e2 := elements.getD i2 default
    if SvgPathItem.is_same headStart e2.start then
      some (e2.flip :: outline, elements.eraseIdx i2)
    else
      let i3 := get_closest tailEnd (elements.map (·.start))
      let e3 := elements.getD i3 default
      if SvgPathItem.is_same tailEnd e3.start then
        some (e3 :: outline, elements.eraseIdx i3)
      else
        let i4 := get_closest tailEnd (elements.map (·.stop))
        let e4 := elements.getD i4 default
        if SvgPathItem.is_same tailEnd e4.stop then
          some (e4.flip :: outline, elements.eraseIdx i4)
        else
          none

/-- The inner `while size != len(outline) and len(elements) > 0` loop.
`size` is the length of `outline` recorded at the top of the previous
iteration.  `fuel` bounds the iteration count; every call site passes
enough fuel (each productive iteration removes one pool element, and an
unproductive iteration is immediately followed by loop exit). -/
def stitchLoop : Nat → Nat → List SvgPathItem → List SvgPathItem →
    List SvgPathItem × List SvgPathItem
  | 0, _, outline, elements => (outline, elements)
  | fuel + 1, size, outline, elements =>
    if size = outline.length ∨ elements.isEmpty then (outline, elements)
    else
      match stitchStep outline elements with
      | some (o, e) => stitchLoop fuel outline.length o e
      | none => stitchLoop fuel outline.length outline elements

/-- The outer `while len(elements) > 0` loop: seed a new outline with the
first remaining element, extend it with `stitchLoop`, then append its
formatted commands to the path. -/
def outlinesLoop : Nat → List SvgPathItem → List PathCmd → List PathCmd
  | 0, _, path => path
  | fuel + 1, elements, path =>
    match elements with
    | [] => path
    | e :: es =>
      let res := stitchLoop (es.length + 2) 0 [e] es
      outlinesLoop fuel res.2 (path ++ emitOutline res.1)

/-- The output of `get_board_polygon`: an SVG `<path>` element, with the
`d` attribute modelled as its command list. -/
structure PathElem where
  d : List PathCmd
  style : String
  deriving DecidableEq

/-- `get_board_polygon` from `plot.py`: stitch the path fragments of the
given groups into closed outlines (circles are converted to self-closed
subpaths up front) and return the resulting `<path>` element with
`style="fill-rule: evenodd;"`. -/
def get_board_polygon (groups : List (List SvgNode)) : PathElem :=
  let col := collectNodes groups
  { d := outlinesLoop (col.1.length + 1) col.1 col.2
    style := "fill-rule: evenodd;" }

/-! ## Embedding of the transform engine (`plot.py`)

`to_trans_matrix` parses an SVG transform string with
`re.findall(r'[a-z]+?\(.*?\)', transform)`, splits each match on `(`,
extracts the numeric arguments with `float_re`, and folds the recognized
operators into a 3×3 matrix.  The string scanning is modelled exactly
(including the lazy/greedy semantics of the two regexes); the matrix
arithmetic is modelled over `ℝ` because of the trigonometric operators.
Python exceptions (`IndexError` on missing arguments, `ValueError` on
tuple unpacking) are modelled by `Except.error`. -/

/-- One match attempt of `[a-z]+?\(.*?\)` at the current position: a
non-empty run of lowercase letters immediately followed by `(`, then the
shortest run of non-newline characters up to a closing `)`.  Returns the
operator name, the text between the parentheses and the remaining input. -/
def matchTransAt (s : List Char) : Option ((List Char × List Char) × List Char) :=
  let ops := s.takeWhile Char.isLower
  if ops.isEmpty then none
  else
    match s.drop ops.length with
    | '(' :: rest =>
      let inner := rest.takeWhile (fun c => !(c == ')') && !(c == '\n'))
      match rest.drop inner.length with
      | ')' :: after => some ((ops, inner), after)
      | _ => none
    | _ => none

/-- The scan of `re.findall`: leftmost, non-overlapping matches; on failure
advance one character.  `fuel` is the remaining input length. -/
def findTransAux : Nat → List Char → List (List Char × List Char)
  | 0, _ => []
  | _ + 1, [] => []
  | fuel + 1, c :: cs =>
    match matchTransAt (c :: cs) with
    | some (m, after) => m :: findTransAux fuel after
    | none => findTransAux fuel cs

/-- `re.findall(r'[a-z]+?\(.*?\)', s)` with each match split into operator
name and argument text. -/
def findTransforms (s : List Char) : List (List Char × List Char) :=
  findTransAux s.length s

/-- Value of a fractional digit string (`".' ++ fp"`). -/
def fracVal (fp : List Char) : ℚ :=
  (digitsToNat fp : ℚ) / 10 ^ fp.length

/-- Optional exponent part `(?:[eE][-+]?\d+)?` of `float_re`: consume it if
a digit run is present, otherwise leave the input alone (regex
backtracking). -/
def tryFloatExp (v : ℚ) (s : List Char) : ℚ × List Char :=
  match s with
  | e :: r =>
    if e == 'e' || e == 'E' then
      let signed : Bool × List Char :=
        match r with
        | '+' :: r2 => (false, r2)
        | '-' :: r2 => (true, r2)
        | _ => (false, r)
      let ds := signed.2.takeWhile Char.isDigit
      if ds.isEmpty then (v, s)
      else if signed.1 then (v / 10 ^ digitsToNat ds, signed.2.drop ds.length)
      else (v * 10 ^ digitsToNat ds, signed.2.drop ds.length)
    else (v, s)
  | _ => (v, s)

/-- One match attempt of `float_re`
(`[-+]?(?:\d+(?:\.\d*)?|\.\d+)(?:[eE][-+]?\d+)?`) at the current position;
returns the parsed value (Python `float` modelled exactly as `ℚ`) and the
remaining input. -/
def matchFloatAt (s : List Char) : Option (ℚ × List Char) :=
  let signed : ℚ × List Char :=
    match s with
    | '+' :: r => (1, r)
    | '-' :: r => (-1, r)
    | _ => (1, s)
  let s1 := signed.2
  let ip := s1.takeWhile Char.isDigit
  if ip.isEmpty then
    match s1 with
    | '.' :: r2 =>
      let fp := r2.takeWhile Char.isDigit
      if fp.isEmpty then none
      else some (tryFloatExp (signed.1 * fracVal fp) (r2.drop fp.length))
    | _ => none
  else
    let rest := s1.drop ip.length
    match rest with
    | '.' :: r2 =>
      let fp := r2.takeWhile Char.isDigit
      some (tryFloatExp (signed.1 * ((digitsToNat ip : ℚ) + fracVal fp))
        (r2.drop fp.length))
    | _ => some (tryFloatExp (signed.1 * (digitsToNat ip : ℚ)) rest)

/-- The scan of `re.findall(float_re, s)`. -/
def findFloatsAux : Nat → List Char → List ℚ
  | 0, _ => []
  | _ + 1, [] => []
  | fuel + 1, c :: cs =>
    match matchFloatAt (c :: cs) with
    | some (v, after) => v :: findFloatsAux fuel after
    | none => findFloatsAux fuel cs

/-- `[float(x) for x in re.findall(float_re, args)]`. -/
def findFloats (s : List Char) : List ℚ :=
  findFloatsAux s.length s

/-- A 3×3 matrix (row-major), as built by `matrix([[...], [...], [...]])`;
entries over `ℝ` (the source computes in floating point, with
trigonometry). -/
structure Mat3 where
  a : ℝ
  b : ℝ
  c : ℝ
  d : ℝ
  e : ℝ
  f : ℝ
  g : ℝ
  h : ℝ
  i : ℝ

/-- Row-by-column matrix product (`np.matmul`). -/
noncomputable def Mat3.mul (m n : Mat3) : Mat3 where
  a := m.a * n.a + m.b * n.d + m.c * n.g
  b := m.a * n.b + m.b * n.e + m.c * n.h
  c := m.a * n.c + m.b * n.f + m.c * n.i
  d := m.d * n.a + m.e * n.d + m.f * n.g
  e := m.d * n.b + m.e * n.e + m.f * n.h
  f := m.d * n.c + m.e * n.f + m.f * n.i
  g := m.g * n.a + m.h * n.d + m.i * n.g
  h := m.g * n.b + m.h * n.e + m.i * n.h
  i := m.g * n.c + m.h * n.f + m.i * n.i

/-- The identity matrix `matrix([[1,0,0],[0,1,0],[0,0,1]])`. -/
noncomputable def idMat : Mat3 := ⟨1, 0, 0, 0, 1, 0, 0, 0, 1⟩

/-- `math.radians`. -/
noncomputable def radians (x : ℝ) : ℝ := x * Real.pi / 180

/-- `matrix([[1,0,x],[0,1,y],[0,0,1]])` (translate). -/
noncomputable def translateMat (x y : ℝ) : Mat3 := ⟨1, 0, x, 0, 1, y, 0, 0, 1⟩

/-- `matrix([[x,0,0],[0,y,0],[0,0,1]])` (scale). -/
noncomputable def scaleMat (x y : ℝ) : Mat3 := ⟨x, 0, 0, 0, y, 0, 0, 0, 1⟩

/-- The rotation matrix built from `cosa = cos(radians(deg))`,
`sina = sin(radians(deg))`. -/
noncomputable def rotMat (deg : ℝ) : Mat3 :=
  ⟨Real.cos (radians deg), -Real.sin (radians deg), 0,
   Real.sin (radians deg), Real.cos (radians deg), 0,
   0, 0, 1⟩

/-- `extract_arg` from `plot.py`: n-th element of the list or the default
if out of range. -/
def extract_arg (args : List ℚ) (index : Nat) (dflt : ℚ) : ℚ :=
  if index ≥ args.length then dflt else args.getD index 0

/-- One operator application of `to_trans_matrix`'s loop body.  The Python
body raises whenever `args` is empty: each recognized operator indexes
`args[0]`, and the unconditional `tana = math.tan(math.radians(args[0]))`
line raises `IndexError` even for unrecognized operators, so the empty
check is hoisted to the front (observationally equivalent).  `rotate` with
exactly two arguments raises `ValueError` on the unpacking
`x, y = args[1:3]`.  An unrecognized operator with at least one argument
leaves the matrix unchanged. -/
noncomputable def evalOp (m : Mat3) (op : List Char) (args : List ℚ) : Except Unit Mat3 :=
  if args.isEmpty then Except.error ()
  else if op = "matrix".data then
    if args.length < 6 then Except.error ()
    else
      Except.ok (m.mul
        ⟨(args.getD 0 0 : ℚ), (args.getD 2 0 : ℚ), (args.getD 4 0 : ℚ),
         (args.getD 1 0 : ℚ), (args.getD 3 0 : ℚ), (args.getD 5 0 : ℚ),
         0, 0, 1⟩)
  else if op = "translate".data then
    Except.ok (m.mul (translateMat (args.getD 0 0 : ℚ) (extract_arg args 1 0 : ℚ)))
  else if op = "scale".data then
    Except.ok (m.mul (scaleMat (args.getD 0 0 : ℚ) (extract_arg args 1 1 : ℚ)))
  else if op = "rotate".data then
    if args.length = 1 then
      Except.ok (m.mul (rotMat (args.getD 0 0 : ℚ)))
    else if args.length = 2 then Except.error ()
    else
      Except.ok
        (((m.mul (translateMat (args.getD 1 0 : ℚ) (args.getD 2 0 : ℚ))).mul
            (rotMat (args.getD 0 0 : ℚ))).mul
          (translateMat (-(args.getD 1 0 : ℚ) : ℚ) (-(args.getD 2 0 : ℚ) : ℚ)))
  else if op = "skewX".data then
    Except.ok (m.mul
      ⟨1, Real.tan (radians (args.getD 0 0 : ℚ)), 0, 0, 1, 0, 0, 0, 1⟩)
  else if op = "skewY".data then
    Except.ok (m.mul
      ⟨1, 0, 0, Real.tan (radians (args.getD 0 0 : ℚ)), 1, 0, 0, 0, 1⟩)
  else Except.ok m

/-- The loop of `to_trans_matrix` over the regex matches.  `t.split('(')`
raises `ValueError` when the matched argument text itself contains a `(`
(three or more parts); otherwise the argument string is
`inner ++ ")"`, scanned by `float_re`. -/
noncomputable def evalOps : Mat3 → List (List Char × List Char) → Except Unit Mat3
  | m, [] => Except.ok m
  | m, (op, inner) :: rest =>
    if inner.contains '(' then Except.error ()
    else
      match evalOp m op (findFloats (inner ++ [')'])) with
      | Except.ok m2 => evalOps m2 rest
      | Except.error e => Except.error e

/-- `to_trans_matrix` from `plot.py`: `none` models the Python `None`
argument. -/
noncomputable def to_trans_matrix (transform : Option String) : Except Unit Mat3 :=
  match transform with
  | none => Except.ok idMat
  | some s => evalOps idMat (findTransforms s.data)

/-- Application of a collected transform to a point, as `element_position`
does: `np.matmul(trans, [x, y, 1])` followed by division by the
homogeneous coordinate. -/
noncomputable def applyMat (m : Mat3) (p : ℝ × ℝ) : ℝ × ℝ :=
  let x := m.a * p.1 + m.b * p.2 + m.c
  let y := m.d * p.1 + m.e * p.2 + m.f
  let w := m.g * p.1 + m.h * p.2 + m.i
  (x / w, y / w)

/-! ## Embedding of the component placement engine (`plot.py`,
`PlotComponents`)

`_append_component` is modelled as a state transition.  The loaded artwork
body is abstract (type parameter `α`): `_create_component` performs file
I/O and is therefore an oracle parameter of the configuration; the state
counts its invocations (the claim under verification is about how often it
is called).  The emitted placement transform is modelled structurally: the
source formats the f-string
`translate(ki2svg(x) ki2svg(y)) scale(sx, sy) rotate(-degrees(rot))
translate(-ox -oy)`; we record the numbers that feed each slot (the
rotation slot keeps the radian value `position[2]`, negated — the
degree conversion is pure output formatting). -/

/-- `PlacedComponentInfo` from `plot.py`. -/
structure PlacedComponentInfo where
  id : String
  origin : ℚ × ℚ
  svg_offset : ℚ × ℚ
  scale : ℚ × ℚ
  size : ℚ × ℚ
  deriving DecidableEq, Repr

/-- The structured content of the `transform` attribute emitted by
`_append_component` for one placement. -/
structure PlacementTransform where
  tx : ℚ
  ty : ℚ
  sx : ℚ
  sy : ℚ
  rotNegRad : ℚ
  ox : ℚ
  oy : ℚ
  deriving DecidableEq, Repr

/-- Body of an emitted component group: either the full artwork element
(first occurrence) or a `<use xlink:href="#...">` reference (repeat
occurrence). -/
inductive CompBody (α : Type) where
  | artwork (a : α)
  | use (href : String)
  deriving DecidableEq, Repr

/-- One element appended to the component container by
`_append_component`: the `lib:name:ref` comment, the transformed group, or
the highlight box (whose internal structure no claim exercises; it is
recorded as a marker carrying the reference). -/
inductive CompOut (α : Type) where
  | comment (lib name ref : String)
  | group (t : PlacementTransform) (body : CompBody α)
  | highlightBox (ref : String)
  deriving DecidableEq, Repr

/-- Configuration of `PlotComponents` plus the plotter services it uses. -/
structure PlotCompConfig (α : Type) where
  filter : String → Bool
  highlight : String → Bool
  remapping : String → String → String → String × String
  resistor_values : List (String × Option String)
  create : String → String → String → String → Option (α × PlacedComponentInfo)
  ki2svg : Int → ℚ
  upfx : String

/-- The `PlotComponents` dataclass defaults: show every component,
highlight none, identity remapping, no value overrides. -/
def defaultCompConfig (α : Type) (create : String → String → String → String →
    Option (α × PlacedComponentInfo)) (ki2svg : Int → ℚ) (upfx : String) :
    PlotCompConfig α where
  filter := fun _ => true
  highlight := fun _ => false
  remapping := fun _ lib name => (lib, name)
  resistor_values := []
  create := create
  ki2svg := ki2svg
  upfx := upfx

/-- Mutable state of one `PlotComponents.render`: the dedup cache
`_used_components`, the emitted component-container elements, the warning
sink, and (instrumentation for the dedup claim) the number of
`_create_component` invocations. -/
structure PlotCompState (α : Type) where
  used_components : List (String × PlacedComponentInfo)
  out : List (CompOut α)
  warnings : List String
  createCalls : Nat

/-- The state at the start of `render`. -/
def emptyCompState (α : Type) : PlotCompState α := ⟨[], [], [], 0⟩

/-- `_get_unique_name`: `f"{prefix}_{lib}__{name}_{value}"`. -/
def uniqueName (upfx lib name value : String) : String :=
  upfx ++ "_" ++ lib ++ "__" ++ name ++ "_" ++ value

/-- The placement transform of the group emitted for one component
instance (see the section comment for the rotation convention). -/
def placementTransform (cfg : PlotCompConfig α) (pos : Int × Int × ℚ)
    (ci : PlacedComponentInfo) : PlacementTransform where
  tx := cfg.ki2svg pos.1
  ty := cfg.ki2svg pos.2.1
  sx := ci.scale.1
  sy := ci.scale.2
  rotNegRad := -pos.2.2
  ox := -ci.origin.1
  oy := -ci.origin.2

/-- `PlotComponents._append_component`, as a state transition on one
footprint callback `(lib, name, ref, value, position)`. -/
def append_component (cfg : PlotCompConfig α) (st : PlotCompState α)
    (lib name ref value : String) (pos : Int × Int × ℚ) : PlotCompState α :=
  if ¬ cfg.filter ref ∨ name = "" then st
  else
    let value :=
      match cfg.resistor_values.lookup ref with
      | some (some v) => v
      | _ => value
    let remapped := cfg.remapping ref lib name
    let lib := remapped.1
    let name := remapped.2
    let key := uniqueName cfg.upfx lib name value
    let hit : Option (CompBody α × PlacedComponentInfo × PlotCompState α) :=
      match st.used_components.lookup key with
      | some ci => some (CompBody.use ("#" ++ ci.id), ci, st)
      | none =>
        match cfg.create lib name ref value with
        | none => none
        | some (elem, ci) =>
          some (CompBody.artwork elem, ci,
            { st with
              used_components := st.used_components ++ [(key, ci)]
              createCalls := st.createCalls + 1 })
    match hit with
    | none =>
      { st with
        warnings := st.warnings ++
          ["Component " ++ lib ++ ":" ++ name ++ " has not footprint."]
        createCalls := st.createCalls + 1 }
    | some (body, ci, st2) =>
      { st2 with
        out := st2.out ++
          ([CompOut.comment lib name ref,
            CompOut.group (placementTransform cfg pos ci) body] ++
            (if cfg.highlight ref then [CompOut.highlightBox ref] else [])) }

/-- `walk_components`-driven processing of a list of footprint records. -/
def append_components (cfg : PlotCompConfig α) (st : PlotCompState α)
    (entries : List (String × String × String × String × (Int × Int × ℚ))) :
    PlotCompState α :=
  entries.foldl
    (fun s e => append_component cfg s e.1 e.2.1 e.2.2.1 e.2.2.2.1 e.2.2.2.2) st

/-! ## Embedding of the plotter facade (`plot.py`, `PcbPlotter`) -/

/-- One direct child of the output document root as created by
`_setup_document`: tag, final `id` attribute and `transform` attribute
(the root's size/viewBox bookkeeping is not modelled; no claim exercises
it). -/
structure DocChild where
  tag : String
  id : String
  transform : String
  deriving DecidableEq, Repr

/-- `PcbPlotter._setup_document`: the `defs` element followed by the three
containers.  When `render_back ^ mirror` the containers carry
`scale(-1,1)`; the component and highlight containers are created in an
order decided by the `highlight-on-top` style entry, and the `id`
attributes are assigned to the stored references afterwards. -/
def setup_document (render_back mirror highlight_on_top : Bool) :
    List DocChild :=
  let ts := if xor render_back mirror then "scale(-1,1)" else ""
  let board : DocChild := ⟨"g", "boardContainer", ts⟩
  let comp : DocChild := ⟨"g", "componentContainer", ts⟩
  let high : DocChild := ⟨"g", "highlightContainer", ts⟩
  [⟨"defs", "", ""⟩, board] ++
    (if highlight_on_top then [comp, high] else [high, comp])

/-- The `id`s of the `<g>` children of the root, in document order. -/
def gIds (cs : List DocChild) : List String :=
  (cs.filter (fun c => c.tag == "g")).map (fun c => c.id)

/-- The two `PcbPlotter` fields governed by the `svg_precision` property:
`_svg_precision` and `_svg_divider` (both Python `int`). -/
structure PrecisionState where
  svg_precision : Int
  svg_divider : Int
  deriving DecidableEq, Repr

/-- The `PcbPlotter.__init__` values: `_svg_precision = 6`,
`_svg_divider = 1`. -/
def initPrecisionState : PrecisionState := ⟨6, 1⟩

/-- The `svg_precision` setter: clamp to `[3, 6]` as KiCAD does, then set
`_svg_divider = 10 ** (6 - svg_precision)` (the exponent is non-negative
after clamping, so `Nat` exponentiation is exact). -/
def set_svg_precision (_s : PrecisionState) (value : Int) : PrecisionState :=
  let v1 := if value < 3 then 3 else value
  let v2 := if v1 > 6 then 6 else v1
  ⟨v2, 10 ^ (6 - v2).toNat⟩

/-- `PcbPlotter._ki2svg_v6`: `x / self._svg_divider` (true division — the
result is a Python float, modelled as `ℚ`). -/
def ki2svg_v6 (s : PrecisionState) (x : Int) : ℚ :=
  (x : ℚ) / (s.svg_divider : ℚ)

/-! ## Scenario definitions for the stitcher claims -/

/-- A line fragment (an `SvgPathItem` of kind `L`, `args is None`). -/
def lineFrag (a b : QPoint) : SvgPathItem := ⟨a, b, SegKind.L, none⟩

/-- The four sides of the axis-aligned square with corner `(0,0)` and side
`s`, each drawn counter-clockwise. -/
def squareFrags (s : ℚ) : List SvgPathItem :=
  [lineFrag (0, 0) (s, 0), lineFrag (s, 0) (s, s),
   lineFrag (s, s) (0, s), lineFrag (0, s) (0, 0)]

/-- Reverse the direction of the fragments selected by `mask` before
input. -/
def applyFlips (mask : List Bool) (l : List SvgPathItem) : List SvgPathItem :=
  List.zipWith (fun b it => if b then it.flip else it) mask l

/-- All 16 flip masks for four fragments. -/
def allMasks4 : List (List Bool) :=
  [false, true].flatMap (fun b1 =>
    [false, true].flatMap (fun b2 =>
      [false, true].flatMap (fun b3 =>
        [false, true].map (fun b4 => [b1, b2, b3, b4]))))

/-- Run `get_board_polygon` on one group holding exactly the given path
fragments and return the emitted `d` commands. -/
def stitchFrags (l : List SvgPathItem) : List PathCmd :=
  (get_board_polygon [l.map SvgNode.path]).d

/-- The point sequence of a `d` attribute consisting of exactly one
absolute move followed by four line commands; `none` for any other
shape. -/
def quadPts : List PathCmd → Option (List QPoint)
  | [PathCmd.move p0, PathCmd.line p1, PathCmd.line p2,
     PathCmd.line p3, PathCmd.line p4] => some [p0, p1, p2, p3, p4]
  | _ => none

/-- A `d` attribute is a closed 4-segment contour: one subpath of exactly
four line segments whose last point returns to the first. -/
def closedQuad (d : List PathCmd) : Bool :=
  match quadPts d with
  | some pts => pts.getD 4 (0, 0) == pts.getD 0 (1, 1)
  | none => false

/-- The undirected segment between two points (endpoints in lexicographic
order, so that direction is quotiented out). -/
def undirEdge (a b : QPoint) : QPoint × QPoint :=
  if a.1 < b.1 ∨ (a.1 = b.1 ∧ a.2 ≤ b.2) then (a, b) else (b, a)

/-- The undirected segments traced by a point sequence. -/
def edgesOfPts : List QPoint → List (QPoint × QPoint)
  | a :: b :: rest => undirEdge a b :: edgesOfPts (b :: rest)
  | _ => []

/-- The undirected segments of a list of input fragments. -/
def fragEdges (l : List SvgPathItem) : List (QPoint × QPoint) :=
  l.map (fun it => undirEdge it.start it.stop)

/-- The amended rectangle-stitching property, as one boolean check: for
every presentation order (all 24 permutations) and every per-fragment
direction choice (all 16 masks) of the four sides of the 1000-unit square
(side exceeding the 100-unit matching tolerance of
`SvgPathItem.is_same`), the stitcher emits one closed 4-segment contour
tracing exactly the four input sides. -/
def squareStitchCheck : Bool :=
  (squareFrags 1000).permutations.all (fun l =>
    allMasks4.all (fun mask =>
      let d := stitchFrags (applyFlips mask l)
      closedQuad d &&
        match quadPts d with
        | some pts => (edgesOfPts pts).isPerm (fragEdges (squareFrags 1000))
        | none => false))

/-- Concrete `PlacedComponentInfo` for exercising the placement engine on
a closed input. -/
def wInfo : PlacedComponentInfo := ⟨"cmpid", (1, 2), (0, 0), (3, 4), (50, 60)⟩

/-- Concrete `_create_component` oracle: every footprint resolves to the
same artwork (`Unit` body) and `wInfo`. -/
def wCreate : String → String → String → String → Option (Unit × PlacedComponentInfo) :=
  fun _ _ _ _ => some ((), wInfo)

/-! ## Theorems for the claims -/

/-- **C1** (counterexample): the claim that `"4k7"`, `"4R7"`, `"4700"` and
`"4.7k"` all parse to numerically equal values is false: `read_resistance`
maps `"4R7"` to `4.7 Ω` (the `R` prefix marks the units position, scale 1)
but `"4k7"` to `4700 Ω`. -/
theorem C1_resistance_counterexample :
    read_resistance "4R7" ≠ read_resistance "4k7" := by
  have h1 : read_resistance "4R7" = some (47 / 10) := by with_unfolding_all rfl
  have h2 : read_resistance "4k7" = some 4700 := by with_unfolding_all rfl
  rw [h1, h2]
  intro h
  injection h with h'
  norm_num at h'

/-- **C1** (amended): `"4k7"`, `"4700"` and `"4.7k"` all parse to the
numerically equal value `4700 Ω`; `"4R7"` parses to `4.7 Ω` (matching the
source's own unit test), not to a value on the 4700 Ω scale. -/
theorem C1_resistance_values :
    read_resistance "4k7" = some 4700 ∧
    read_resistance "4700" = some 4700 ∧
    read_resistance "4.7k" = some 4700 ∧
    read_resistance "4R7" = some (47 / 10) := by
  refine ⟨?_, ?_, ?_, ?_⟩ <;> with_unfolding_all rfl

/-- **C2** (counterexample): for the literal unit square the claim fails:
the four corners are all within the stitcher's fixed matching tolerance
(distance 100), so reversing the second fragment before input changes the
emitted contour and the result is not even closed. -/
theorem C2_stitch_counterexample :
    stitchFrags (applyFlips [false, true, false, false] (squareFrags 1)) ≠
      stitchFrags (squareFrags 1) ∧
    closedQuad
      (stitchFrags (applyFlips [false, true, false, false] (squareFrags 1))) =
      false ∧
    closedQuad (stitchFrags (squareFrags 1)) = true :=
  ⟨of_decide_eq_true (by with_unfolding_all rfl),
   of_decide_eq_true (by with_unfolding_all rfl),
   of_decide_eq_true (by with_unfolding_all rfl)⟩

set_option maxRecDepth 100000 in
set_option maxHeartbeats 8000000 in
/-- **C2** (amended): for the four sides of a square whose side (1000)
exceeds the matching tolerance (100), every presentation order (all 24
permutations) and every per-fragment direction choice (all 16 reversal
masks) stitches to exactly one closed 4-segment contour tracing exactly
the four input sides; the traced segment set is the same in every case
(the emitted command list may start at a different corner or run in the
opposite orientation when fragments are reversed). -/
theorem C2_square_stitch : squareStitchCheck = true := by
  with_unfolding_all rfl

/-- **C7** (counterexample): with the default style
(`highlight-on-top = False`) the three groups appear in the order board,
highlight, component — not the claimed board, component, highlight. -/
theorem C7_order_counterexample :
    gIds (setup_document false false false) ≠
      ["boardContainer", "componentContainer", "highlightContainer"] ∧
    gIds (setup_document false false false) =
      ["boardContainer", "highlightContainer", "componentContainer"] :=
  ⟨by decide, by decide⟩

/-- **C7** (amended): every plot sets up exactly three top-level groups
with the stable ids `boardContainer`, `componentContainer` and
`highlightContainer`; the board container comes first, and the component
container precedes the highlight container exactly when the
`highlight-on-top` style entry is true (with the default style the
highlight container comes second). -/
theorem C7_containers (render_back mirror highlight_on_top : Bool) :
    gIds (setup_document render_back mirror highlight_on_top) =
      if highlight_on_top then
        ["boardContainer", "componentContainer", "highlightContainer"]
      else
        ["boardContainer", "highlightContainer", "componentContainer"] := by
  cases highlight_on_top <;> rfl

/-- **C9**: a single circular fragment passed alone is emitted verbatim as
the one self-closed circular subpath produced by the circle-to-path
conversion, stitched to nothing and never mutated. -/
theorem C9_isolated_circle (cx cy r : ℚ) :
    get_board_polygon [[SvgNode.circle cx cy r]] =
      { d := circleCmds cx cy r, style := "fill-rule: evenodd;" } := rfl

/-- **C10**: assigning `v` to `svg_precision` stores exactly
`min 6 (max 3 v)` (silent clamping to `[3, 6]`), re-establishes
`_svg_divider = 10 ^ (6 - svg_precision)`, and the v6 KiCAD-to-SVG
conversion then divides by exactly that power of ten. -/
theorem C10_svg_precision (s : PrecisionState) (v x : Int) :
    (set_svg_precision s v).svg_precision = min 6 (max 3 v) ∧
    (set_svg_precision s v).svg_divider =
      10 ^ ((6 - (set_svg_precision s v).svg_precision).toNat) ∧
    ki2svg_v6 (set_svg_precision s v) x =
      (x : ℚ) / (10 : ℚ) ^ ((6 - min 6 (max 3 v)).toNat) := by
  have hp : (set_svg_precision s v).svg_precision = min 6 (max 3 v) := by
    simp only [set_svg_precision]
    split_ifs <;> omega
  refine ⟨hp, by simp only [set_svg_precision], ?_⟩
  simp only [ki2svg_v6, set_svg_precision]
  have h6 : (if (if v < 3 then 3 else v) > 6 then 6
      else if v < 3 then 3 else v) = min 6 (max 3 v) := by
    split_ifs <;> omega
  rw [h6]
  push_cast
  rfl

/-- **C6**: placing the same `(library, name, value)` combination twice in
one render (default `PlotComponents` configuration) invokes
`_create_component` exactly once; the first occurrence emits the artwork
body, the second emits a `<use>` reference to the cached artwork's id, and
each occurrence carries its own placement transform computed from its own
board position together with the cached origin and scale. -/
theorem C6_dedup {α : Type} (create : String → String → String → String →
      Option (α × PlacedComponentInfo))
    (ki2svg : Int → ℚ) (upfx : String) (lib name value r1 r2 : String)
    (p1 p2 : Int × Int × ℚ) (a : α) (info : PlacedComponentInfo)
    (hname : name ≠ "")
    (hcreate : create lib name r1 value = some (a, info)) :
    (append_components (defaultCompConfig α create ki2svg upfx)
        (emptyCompState α)
        [(lib, name, r1, value, p1), (lib, name, r2, value, p2)]).createCalls
        = 1 ∧
    (append_components (defaultCompConfig α create ki2svg upfx)
        (emptyCompState α)
        [(lib, name, r1, value, p1), (lib, name, r2, value, p2)]).out =
      [CompOut.comment lib name r1,
       CompOut.group
         (placementTransform (defaultCompConfig α create ki2svg upfx) p1 info)
         (CompBody.artwork a),
       CompOut.comment lib name r2,
       CompOut.group
         (placementTransform (defaultCompConfig α create ki2svg upfx) p2 info)
         (CompBody.use ("#" ++ info.id))] := by
  simp only [append_components, List.foldl, append_component,
    defaultCompConfig, emptyCompState, hname, hcreate, List.lookup,
    uniqueName, not_true, false_or, if_false, beq_self_eq_true,
    List.nil_append, List.append_nil]
  simp [hname]

/-- Witness for **C6**: both hypotheses hold and the conclusion follows at
a concrete instantiation (two `R1`/`R2` placements of the same
`KiCAD-base:R0805` footprint with value `10k`). -/
theorem C6_dedup_witness :
    (("R0805" : String) ≠ "" ∧
      wCreate "KiCAD-base" "R0805" "R1" "10k" = some ((), wInfo)) ∧
    ((append_components
        (defaultCompConfig Unit wCreate (fun x => (x : ℚ)) "u1")
        (emptyCompState Unit)
        [("KiCAD-base", "R0805", "R1", "10k", (1, 2, 0)),
         ("KiCAD-base", "R0805", "R2", "10k", (3, 4, 0))]).createCalls = 1 ∧
     (append_components
        (defaultCompConfig Unit wCreate (fun x => (x : ℚ)) "u1")
        (emptyCompState Unit)
        [("KiCAD-base", "R0805", "R1", "10k", (1, 2, 0)),
         ("KiCAD-base", "R0805", "R2", "10k", (3, 4, 0))]).out =
      [CompOut.comment "KiCAD-base" "R0805" "R1",
       CompOut.group
         (placementTransform
           (defaultCompConfig Unit wCreate (fun x => (x : ℚ)) "u1")
           (1, 2, 0) wInfo)
         (CompBody.artwork ()),
       CompOut.comment "KiCAD-base" "R0805" "R2",
       CompOut.group
         (placementTransform
           (defaultCompConfig Unit wCreate (fun x => (x : ℚ)) "u1")
           (3, 4, 0) wInfo)
         (CompBody.use ("#" ++ wInfo.id))]) :=
  ⟨⟨by decide, rfl⟩,
   C6_dedup wCreate (fun x => (x : ℚ)) "u1" "KiCAD-base" "R0805" "10k"
     "R1" "R2" (1, 2, 0) (3, 4, 0) () wInfo (by decide) rfl⟩

/-- **C3**: operators compose left-to-right with SVG semantics — the
matrix of `"translate(10,0) rotate(90)"` applied (as `element_position`
does) to the point `(1,0)` yields `(10,1)`: the rotation acts first, in
local space, then the translation. -/
theorem C3_translate_rotate :
    (to_trans_matrix (some "translate(10,0) rotate(90)")).map
      (fun m => applyMat m (1, 0)) = Except.ok ((10 : ℝ), 1) := by
  have e : to_trans_matrix (some "translate(10,0) rotate(90)") =
      Except.ok ((idMat.mul (translateMat ((10 : ℚ) : ℝ) ((0 : ℚ) : ℝ))).mul
        (rotMat ((90 : ℚ) : ℝ))) := by
    with_unfolding_all rfl
  rw [e]
  simp only [Except.map]
  have h : radians ((90 : ℚ) : ℝ) = Real.pi / 2 := by
    simp only [radians]
    push_cast
    ring
  simp only [applyMat, Mat3.mul, idMat, translateMat, rotMat, h,
    Real.cos_pi_div_two, Real.sin_pi_div_two]
  norm_num

/-- **C4** (counterexample): `to_trans_matrix` is not total on strings —
on `"translate()"` (a recognized operator with an empty argument list) the
source evaluates `args[0]` and raises `IndexError`, modelled by
`Except.error`. -/
theorem C4_malformed_raises :
    to_trans_matrix (some "translate()") = Except.error () := by
  with_unfolding_all rfl

/-- **C4** (amended): absent input (`None`) and input in which the regex
scan finds no operator both yield the identity matrix; but the function
can raise on malformed operator text (see the counterexample), so "never
raises an error" does not hold for every string. -/
theorem C4_identity_on_unparseable :
    (∀ s : String, findTransforms s.data = [] →
      to_trans_matrix (some s) = Except.ok idMat) ∧
    to_trans_matrix none = Except.ok idMat := by
  refine ⟨fun s h => ?_, rfl⟩
  simp only [to_trans_matrix, h]
  rfl

/-- Witness for **C4**: `"hello, world"` contains no parseable operator
and parses to the identity matrix. -/
theorem C4_identity_witness :
    findTransforms ("hello, world".data) = [] ∧
    to_trans_matrix (some "hello, world") = Except.ok idMat :=
  ⟨rfl, C4_identity_on_unparseable.1 "hello, world" rfl⟩

/-- **C5** (code evaluated at the failing input): for the one-argument
form the source defaults the second scale factor to `1`
(`extract_arg(args, 1, 1)`), not to the first factor as the SVG
specification (and the spec) requires: `"scale(2)"` yields the matrix
`scale(2, 1)`, and applied to `(0,1)` returns `(0,1)` where the claim
requires `(0,2)`. -/
theorem C5_scale_single_arg :
    to_trans_matrix (some "scale(2)") =
      Except.ok (idMat.mul (scaleMat ((2 : ℚ) : ℝ) ((1 : ℚ) : ℝ))) ∧
    (to_trans_matrix (some "scale(2)")).map (fun m => applyMat m (0, 1)) =
      Except.ok ((0 : ℝ), 1) := by
  have e : to_trans_matrix (some "scale(2)") =
      Except.ok (idMat.mul (scaleMat ((2 : ℚ) : ℝ) ((1 : ℚ) : ℝ))) := by
    with_unfolding_all rfl
  refine ⟨e, ?_⟩
  rw [e]
  simp only [Except.map]
  simp only [applyMat, Mat3.mul, idMat, scaleMat]
  norm_num

/-- **C8**: parsing `rotate` with a pivot composes exactly
`translate(cx,cy) · rotate(deg) · translate(-cx,-cy)` onto the running
matrix, and consequently the pivot is a fixed point:
`"rotate(180,5,5)"` applied to `(5,5)` returns `(5,5)`. -/
theorem C8_rotate_pivot :
    (∀ (m : Mat3) (d cx cy : ℚ),
      evalOp m ("rotate".data) [d, cx, cy] =
        Except.ok (((m.mul (translateMat (cx : ℝ) (cy : ℝ))).mul
          (rotMat (d : ℝ))).mul
          (translateMat ((-cx : ℚ) : ℝ) ((-cy : ℚ) : ℝ)))) ∧
    (to_trans_matrix (some "rotate(180,5,5)")).map
      (fun m => applyMat m (5, 5)) = Except.ok ((5 : ℝ), 5) := by
  constructor
  · intro m d cx cy
    with_unfolding_all rfl
  · have e : to_trans_matrix (some "rotate(180,5,5)") =
        Except.ok (((idMat.mul (translateMat ((5 : ℚ) : ℝ) ((5 : ℚ) : ℝ))).mul
          (rotMat ((180 : ℚ) : ℝ))).mul
          (translateMat ((-(5 : ℚ) : ℚ) : ℝ) ((-(5 : ℚ) : ℚ) : ℝ))) := by
      with_unfolding_all rfl
    rw [e]
    simp only [Except.map]
    have h : radians ((180 : ℚ) : ℝ) = Real.pi := by
      simp only [radians]
      push_cast
      ring
    simp only [applyMat, Mat3.mul, idMat, translateMat, rotMat, h,
      Real.cos_pi, Real.sin_pi]
    norm_num
